import Mathlib

/-!
Shallow embedding of the Economix browser client (src/static/app.js).
The client keeps a set of global mutable variables (pagination cursors,
filter values, message cache, unread counter, session token); here they are
gathered into an explicit `ClientState` record and every handler of the
source becomes a pure state transformer.  Network completions are passed in
as `FetchResult` values: `failure` models a rejected fetch/JSON promise
(the `.then` callbacks never run, there is no `.catch`), `authError` models
a parsed JSON body carrying an error instead of the expected payload, and
`ok` carries the payload.
-/

namespace Economix

/-- ASCII model of the JavaScript `String.prototype.toLowerCase`. -/
def lowerStr (s : String) : String :=
  ⟨s.data.map Char.toLower⟩

/-- List-level check that the first argument is a leading segment of the
second: executable counterpart of `List.IsPrefix`. -/
def startsWithL : List Char → List Char → Bool
  | [], _ => true
  | _ :: _, [] => false
  | p :: ps, c :: cs => p == c && startsWithL ps cs

/-- Executable substring search on character lists: counterpart of the
JavaScript `String.prototype.includes`. -/
def containsList (pat : List Char) : List Char → Bool
  | [] => pat.isEmpty
  | c :: t => startsWithL pat (c :: t) || containsList pat t

/-- JavaScript `hay.includes(pat)` for strings. -/
def strIncludes (hay pat : String) : Bool :=
  containsList pat.data hay.data

/-- Value of a list of decimal digit characters. -/
def digitsToNat (l : List Char) : Nat :=
  l.foldl (fun acc c => acc * 10 + (c.toNat - 48)) 0

/-- Longest leading run of decimal digits. -/
def leadingDigits : List Char → List Char
  | [] => []
  | c :: t => if c.isDigit then c :: leadingDigits t else []

/-- Model of the JavaScript `parseInt` on base-10 input: reads an optional
minus sign and then the leading digits, ignoring any trailing characters;
`none` models the NaN result when no digit is found. -/
def parseIntJs (s : String) : Option Int :=
  match s.data with
  | '-' :: rest =>
      let ds := leadingDigits rest
      if ds.isEmpty then none else some (-(digitsToNat ds : Int))
  | l =>
      let ds := leadingDigits l
      if ds.isEmpty then none else some ((digitsToNat ds : Int))

/-- Model of the JavaScript `Number` conversion restricted to the integer
literals that the price inputs of the market filter carry: an optional minus
sign followed by digits only; `none` models NaN for any other non-empty
string, and the empty string converts to `0` (the callers guard emptiness
through JS falsiness before ever calling `Number`). -/
def jsNumber (s : String) : Option Int :=
  match s.data with
  | [] => some 0
  | '-' :: rest =>
      if rest.isEmpty then none
      else if rest.all (fun c => c.isDigit) then some (-(digitsToNat rest : Int)) else none
  | l =>
      if l.all (fun c => c.isDigit) then some ((digitsToNat l : Int)) else none

/-- Composite display name of an item (`item.name` in the source). -/
structure ItemName where
  icon : String
  adjective : String
  material : String
  noun : String
  suffix : String
  number : Nat
deriving DecidableEq

/-- An item as the client sees it.  `level` is kept as the string the strict
equality of the filters compares against; `item_secret` is the capability
string shown by `viewSecret`. -/
structure Item where
  id : Nat
  name : ItemName
  rarity : String
  level : String
  for_sale : Bool
  price : Int
  owner : String
  item_secret : String
deriving DecidableEq

/-- A pet from the account snapshot (rendered only; no claim logic). -/
structure Pet where
  id : Nat
  name : String
  level : Nat
  status : String
deriving DecidableEq

/-- A chat message as delivered by `get_messages`. -/
structure ChatMessage where
  id : Nat
  username : String
  message : String
  type : String
  timestamp : Int
deriving DecidableEq

/-- One aggregate statistic row. -/
structure StatEntry where
  name : String
  value : String
deriving DecidableEq

/-- One leaderboard row. -/
structure LeaderboardEntry where
  place : Nat
  username : String
  tokens : Int
deriving DecidableEq

/-- Payload of a successful `/api/account` fetch. -/
structure AccountData where
  username : String
  type : String
  tokens : Int
  level : Int
  exp : Int
  banned : Bool
  banned_until : Int
  banned_reason : String
  items : List Item
  pets : List Pet
  last_item_time : ℚ
  last_mine_time : ℚ

/-- The global variable `marketItems` is assigned the parsed JSON body
unconditionally; on an auth-error body it therefore holds a plain object
rather than an array (and the subsequent `.filter` call throws). -/
inductive MarketSlot
  | list (xs : List Item)
  | errorObject
deriving DecidableEq

/-- Completion of one fetch: a rejected promise (network or parse failure,
no callback runs), a parsed body carrying an auth rejection, or the
expected payload. -/
inductive FetchResult (α : Type)
  | failure
  | authError
  | ok (data : α)

/-- The global mutable state of the client, one field per global variable
of app.js, plus explicit fields for the rendered (painted) slices and for
the `location.reload()` count that an auth rejection of the account fetch
triggers. -/
structure ClientState where
  token : Option String
  inventoryPage : Nat
  marketPage : Nat
  items : List Item
  pets : List Pet
  marketItems : MarketSlot
  globalMessages : List ChatMessage
  renderedMessages : List ChatMessage
  unreadMessages : Nat
  isChatFocused : Bool
  chatTabNewAlert : Bool
  activeTab : String
  inventorySearchQuery : String
  inventoryRarityFilter : String
  inventorySaleFilter : String
  marketSearchQuery : String
  marketRarityFilter : String
  marketPriceMin : String
  marketPriceMax : String
  marketSellerFilter : String
  renderedInventory : List Item
  renderedMarket : List Item
  leaderboard : List LeaderboardEntry
  stats : List StatEntry
  banner : Option String
  accountType : String
  bannedLockout : Bool
  itemCooldownText : Option Int
  mineCooldownText : Option Int
  reloadCount : Nat
deriving DecidableEq

/-- Values currently held by the inventory filter controls in the DOM. -/
structure InventoryDom where
  search : String
  rarity : String
  sale : String

/-- Values currently held by the market filter controls in the DOM. -/
structure MarketDom where
  search : String
  rarity : String
  priceMin : String
  priceMax : String
  seller : String

/-- Fixed page size of both paginated lists. -/
def itemsPerPage : Nat := 5

/-- Item creation cooldown in seconds (`1 * 60` in the source). -/
def ITEM_CREATE_COOLDOWN : ℚ := 1 * 60

/-- Token mining cooldown in seconds (`5 * 60` in the source). -/
def TOKEN_MINE_COOLDOWN : ℚ := 5 * 60

/-- The composed display name the filters search in (template literal of
`applyInventoryFilters` and `applyMarketFilters`, identical in both). -/
def itemFullName (it : Item) : String :=
  it.name.adjective ++ " " ++ it.name.material ++ " " ++ it.name.noun ++ " " ++
    it.name.suffix ++ " #" ++ toString it.name.number

/-- Predicate of the inventory filter; `query` is the already-lowercased
stored search value, mirroring the assignment from the DOM read. -/
def inventoryItemMatches (query rarity sale : String) (it : Item) : Bool :=
  let fullName := lowerStr (itemFullName it)
  let matchesSearch := strIncludes fullName query
  let matchesRarity := rarity == "" || it.level == rarity
  let matchesSale :=
    if sale == "forsale" then it.for_sale
    else if sale == "notforsale" then !it.for_sale
    else true
  matchesSearch && matchesRarity && matchesSale

/-- Lower price bound test of the market filter: a blank control is falsy
and stands for minus infinity; a NaN conversion makes the comparison false. -/
def priceGeMin (minStr : String) (price : Int) : Bool :=
  if minStr == "" then true
  else match jsNumber minStr with
    | some m => decide (m ≤ price)
    | none => false

/-- Upper price bound test of the market filter: a blank control is falsy
and stands for plus infinity; a NaN conversion makes the comparison false. -/
def priceLeMax (maxStr : String) (price : Int) : Bool :=
  if maxStr == "" then true
  else match jsNumber maxStr with
    | some m => decide (price ≤ m)
    | none => false

/-- Predicate of the market filter; `query` and `seller` are the stored
already-lowercased values. -/
def marketItemMatches (query rarity priceMin priceMax seller : String) (it : Item) : Bool :=
  let fullName := lowerStr (itemFullName it)
  let matchesSearch := strIncludes fullName query
  let matchesRarity := rarity == "" || it.level == rarity
  let matchesPrice := priceGeMin priceMin it.price && priceLeMax priceMax it.price
  let matchesSeller := seller == "" || strIncludes (lowerStr it.owner) seller
  matchesSearch && matchesRarity && matchesPrice && matchesSeller

/-- The filtered inventory collection, from the stored filter values. -/
def inventoryFilteredList (query rarity sale : String) (items : List Item) : List Item :=
  items.filter (inventoryItemMatches query rarity sale)

/-- The filtered market collection, from the stored filter values. -/
def marketFilteredList (query rarity priceMin priceMax seller : String)
    (items : List Item) : List Item :=
  items.filter (marketItemMatches query rarity priceMin priceMax seller)

/-- Model of `renderInventory`: paints the slice
`filtered.slice((page-1)*5, page*5)` at the current page cursor.  The
pagination arithmetic of the source is reproduced; no clamping happens
here. -/
def renderInventory (filtered : List Item) (s : ClientState) : ClientState :=
  { s with renderedInventory :=
      ((filtered.drop ((s.inventoryPage - 1) * itemsPerPage)).take itemsPerPage) }

/-- Model of `renderMarketplace`: paints the slice at the current market
page cursor; no clamping happens here. -/
def renderMarketplace (filtered : List Item) (s : ClientState) : ClientState :=
  { s with renderedMarket :=
      ((filtered.drop ((s.marketPage - 1) * itemsPerPage)).take itemsPerPage) }

/-- Ceiling division used for `Math.ceil(length / itemsPerPage)`. -/
def totalPagesOf (len : Nat) : Nat :=
  (len + itemsPerPage - 1) / itemsPerPage

/-- The Next button handler of the marketplace pagination: steps forward
only below the total page count of the currently rendered collection. -/
def marketNextPage (filtered : List Item) (s : ClientState) : ClientState :=
  if s.marketPage < totalPagesOf filtered.length then
    renderMarketplace filtered { s with marketPage := s.marketPage + 1 }
  else s

/-- Model of `applyInventoryFilters`: reads the three controls, stores the
read values (search lowercased), resets the page to 1 when any of the three
differs from the previously stored value, filters and renders. -/
def applyInventoryFilters (dom : InventoryDom) (items : List Item)
    (s : ClientState) : ClientState :=
  let newQuery := lowerStr dom.search
  let newRarity := dom.rarity
  let newSale := dom.sale
  let s1 := { s with inventorySearchQuery := newQuery,
                     inventoryRarityFilter := newRarity,
                     inventorySaleFilter := newSale }
  let s2 :=
    if s.inventorySearchQuery ≠ newQuery ∨ s.inventoryRarityFilter ≠ newRarity ∨
        s.inventorySaleFilter ≠ newSale then
      { s1 with inventoryPage := 1 }
    else s1
  renderInventory (inventoryFilteredList newQuery newRarity newSale items) s2

/-- Model of `applyMarketFilters`: reads the five controls, stores the read
values (search and seller lowercased), resets the page to 1 when any of the
five differs from the previously stored value, filters and renders. -/
def applyMarketFilters (dom : MarketDom) (items : List Item)
    (s : ClientState) : ClientState :=
  let newQuery := lowerStr dom.search
  let newRarity := dom.rarity
  let newMin := dom.priceMin
  let newMax := dom.priceMax
  let newSeller := lowerStr dom.seller
  let s1 := { s with marketSearchQuery := newQuery,
                     marketRarityFilter := newRarity,
                     marketPriceMin := newMin,
                     marketPriceMax := newMax,
                     marketSellerFilter := newSeller }
  let s2 :=
    if s.marketSearchQuery ≠ newQuery ∨ s.marketRarityFilter ≠ newRarity ∨
        s.marketPriceMin ≠ newMin ∨ s.marketPriceMax ≠ newMax ∨
        s.marketSellerFilter ≠ newSeller then
      { s1 with marketPage := 1 }
    else s1
  renderMarketplace (marketFilteredList newQuery newRarity newMin newMax newSeller items) s2

/-- Model of `switchTab`: activating the chat tab zeroes the unread counter,
clears the alert marker and focuses the chat; any other tab unfocuses it. -/
def switchTab (tabName : String) (s : ClientState) : ClientState :=
  if tabName = "chat" then
    { s with unreadMessages := 0, chatTabNewAlert := false,
             isChatFocused := true, activeTab := tabName }
  else
    { s with isChatFocused := false, activeTab := tabName }

/-- Model of `appendMessage`: appends to the painted message list and trims
the DOM to the newest 200 entries. -/
def appendMessage (m : ChatMessage) (s : ClientState) : ClientState :=
  let l := s.renderedMessages ++ [m]
  { s with renderedMessages := l.drop (l.length - 200) }

/-- Model of `handleNewMessage`: while the active tab is not the chat tab
the unread counter is incremented (and the badge, a pure function of the
counter, updates); while the chat is unfocused the entry point is marked;
the message is then painted. -/
def handleNewMessage (m : ChatMessage) (s : ClientState) : ClientState :=
  let s1 := if s.activeTab ≠ "chat" then
      { s with unreadMessages := s.unreadMessages + 1 }
    else s
  let s2 := if !s1.isChatFocused then { s1 with chatTabNewAlert := true } else s1
  appendMessage m s2

/-- The notification badge derived from the state: shows the counter and is
hidden exactly when it is zero (`updateNotificationBadge`). -/
def notificationBadge (s : ClientState) : Option Nat :=
  if s.unreadMessages > 0 then some s.unreadMessages else none

/-- Model of `refreshGlobalMessages`: a failed fetch runs no callback; a
body without a `messages` field is ignored; an unchanged message count
short-circuits; otherwise the painted list is cleared and EVERY message of
the fresh list is passed through `handleNewMessage`, after which the cache
is replaced. -/
def refreshGlobalMessages (resp : FetchResult (List ChatMessage))
    (s : ClientState) : ClientState :=
  match resp with
  | .failure => s
  | .authError => s
  | .ok msgs =>
      if msgs.length = s.globalMessages.length then s
      else
        let s1 := { s with renderedMessages := [] }
        let s2 := msgs.foldl (fun st m => handleNewMessage m st) s1
        { s2 with globalMessages := msgs }

/-- Role-gated tab handling of `refreshAccount`: a user left on a dashboard
the fresh role no longer grants is moved to the neutral dashboard tab. -/
def roleTabAdjust (accountType : String) (s : ClientState) : ClientState :=
  if accountType = "admin" then
    (if s.activeTab = "modDashboard" then switchTab "dashboard" s else s)
  else if accountType = "mod" then
    (if s.activeTab = "adminDashboard" then switchTab "dashboard" s else s)
  else
    (if s.activeTab = "adminDashboard" ∨ s.activeTab = "modDashboard" then
      switchTab "dashboard" s
    else s)

/-- Cooldown projection of `refreshAccount`: remaining time is
`duration - (now - lastActionTime)`; a positive remainder is displayed
ceiling-rounded, otherwise the message is empty (`none`). -/
def cooldownDisplay (duration now lastActionTime : ℚ) : Option Int :=
  let remaining := duration - (now - lastActionTime)
  if remaining > 0 then some ⌈remaining⌉ else none

/-- Model of the `/api/account` completion handler: a body with an error
removes the stored token and reloads the page (forced re-login, counted by
`reloadCount`); a banned account locks the client out; otherwise the
snapshot is replaced, the role toggles run, the inventory page is reset
when it points past the UNFILTERED item count, the inventory filters are
re-applied and the two cooldown projections are recomputed. -/
def refreshAccount (resp : FetchResult AccountData) (dom : InventoryDom)
    (now : ℚ) (s : ClientState) : ClientState :=
  match resp with
  | .failure => s
  | .authError => { s with token := none, reloadCount := s.reloadCount + 1 }
  | .ok d =>
      if d.banned then { s with bannedLockout := true }
      else
        let s1 := roleTabAdjust d.type { s with accountType := d.type }
        let s2 := { s1 with items := d.items }
        let s3 :=
          if (s2.inventoryPage - 1) * itemsPerPage ≥ d.items.length then
            { s2 with inventoryPage := 1 }
          else s2
        let s4 := applyInventoryFilters dom d.items s3
        let s5 := { s4 with pets := d.pets }
        { s5 with
            itemCooldownText := cooldownDisplay ITEM_CREATE_COOLDOWN now d.last_item_time,
            mineCooldownText := cooldownDisplay TOKEN_MINE_COOLDOWN now d.last_mine_time }

/-- Model of the `/api/market` completion handler: the parsed body is stored
into `marketItems` unconditionally; on an auth-error body the stored value
is the error object and the subsequent `.filter` call throws, so neither
filters nor render run (and no session teardown happens). -/
def refreshMarket (dom : MarketDom) (resp : FetchResult (List Item))
    (s : ClientState) : ClientState :=
  match resp with
  | .failure => s
  | .authError => { s with marketItems := MarketSlot.errorObject }
  | .ok data => applyMarketFilters dom data { s with marketItems := MarketSlot.list data }

/-- Model of the `/api/leaderboard` completion handler: only a body carrying
a `leaderboard` field has any effect. -/
def refreshLeaderboard (resp : FetchResult (List LeaderboardEntry))
    (s : ClientState) : ClientState :=
  match resp with
  | .ok d => { s with leaderboard := d }
  | _ => s

/-- Model of the `/api/stats` completion handler: only a body carrying a
`stats` field has any effect. -/
def getStats (resp : FetchResult (List StatEntry)) (s : ClientState) : ClientState :=
  match resp with
  | .ok d => { s with stats := d }
  | _ => s

/-- Model of the `/api/get_banner` completion handler: only a body carrying
a `banner` field has any effect. -/
def refreshBanner (resp : FetchResult String) (s : ClientState) : ClientState :=
  match resp with
  | .ok b => { s with banner := some b }
  | _ => s

/-- The completions of the six polled resources of one scheduler tick. -/
structure TickResponses where
  statsR : FetchResult (List StatEntry)
  bannerR : FetchResult String
  accountR : FetchResult AccountData
  messagesR : FetchResult (List ChatMessage)
  leaderboardR : FetchResult (List LeaderboardEntry)
  marketR : FetchResult (List Item)

/-- One tick of the 1-second interval: nothing is issued without a token;
otherwise the six resource handlers run on their completions, in the order
the requests are issued in the source. -/
def tick (r : TickResponses) (invDom : InventoryDom) (mktDom : MarketDom)
    (now : ℚ) (s : ClientState) : ClientState :=
  if s.token.isNone then s
  else
    refreshMarket mktDom r.marketR
      (refreshLeaderboard r.leaderboardR
        (refreshGlobalMessages r.messagesR
          (refreshAccount r.accountR invDom now
            (refreshBanner r.bannerR
              (getStats r.statsR s)))))

/-- Observable effects of `customAlert(message)`: the FIRST statement of its
body is `console.log(message)`, so every alerted message is also written to
the console channel, besides the private modal display. -/
structure AlertEffect where
  consoleLog : String
  modalMessage : String
deriving DecidableEq

/-- Model of `customAlert`. -/
def customAlert (message : String) : AlertEffect :=
  ⟨message, message⟩

/-- Model of `viewSecret`: finds the item and alerts its secret; `none`
models the exception thrown when the id is absent. -/
def viewSecret (items : List Item) (itemId : Nat) : Option AlertEffect :=
  match items.find? (fun it => it.id == itemId) with
  | some it =>
      some (customAlert ("Secret (do not share - it will let people take your item): "
        ++ it.item_secret))
  | none => none

/-- A pending JavaScript promise object carrying the value it will resolve
with; as a value it is an object, and every object is truthy. -/
structure JsPromiseB where
  resolvedValue : Bool
deriving DecidableEq

/-- Model of `customConfirm`: returns the (pending) promise that will
resolve to the answer the user eventually picks. -/
def customConfirm (_message : String) (userAnswer : Bool) : JsPromiseB :=
  ⟨userAnswer⟩

/-- JavaScript truthiness of a promise object: any object is truthy,
independently of the value it resolves with. -/
def jsTruthy (_p : JsPromiseB) : Bool :=
  true

/-- The POST body of `/api/delete_item`. -/
structure DeleteRequest where
  endpoint : String
  item_id : Nat
deriving DecidableEq

/-- Model of `deleteItem`: the source tests `if (customConfirm(...))`, i.e.
the truthiness of the un-awaited promise object, and sends the request when
the test passes; `none` would model the suppressed request. -/
def deleteItem (userAnswer : Bool) (item_id : Nat) : Option DeleteRequest :=
  if jsTruthy (customConfirm "Are you sure you want to delete this item?" userAnswer) then
    some ⟨"/api/delete_item", item_id⟩
  else none

/-- The POST body of `/api/sell_item`; `price` is `none` when the NaN of a
failed `parseInt` is serialized. -/
structure SellRequest where
  endpoint : String
  item_id : Nat
  price : Option Int
deriving DecidableEq

/-- Model of `sellItem`: prompts for a price; a cancelled prompt (`none`)
or an empty answer is falsy and sends nothing; otherwise the request goes
out with the `parseInt` of the answer. -/
def sellItemRequest (itemId : Nat) (priceInput : Option String) : Option SellRequest :=
  match priceInput with
  | none => none
  | some p => if p = "" then none else some ⟨"/api/sell_item", itemId, parseIntJs p⟩

/-- Model of `cancelSale`: unconditionally posts `/api/sell_item` with the
price field fixed to 1. -/
def cancelSaleRequest (itemId : Nat) : SellRequest :=
  ⟨"/api/sell_item", itemId, some 1⟩

/-- Spec-side reading of a price control: `some none` for a blank control
(an open bound), `some (some m)` for a numeric one, and `none` when the
conversion would be NaN. -/
def boundOf (s : String) : Option (Option Int) :=
  if s = "" then some none else (jsNumber s).map some

/-- A demonstration client state with a live session and the initial values
of the global variables of the source (filters blank, both pages at 1,
nothing cached). -/
def baseState : ClientState where
  token := some "tok"
  inventoryPage := 1
  marketPage := 1
  items := []
  pets := []
  marketItems := MarketSlot.list []
  globalMessages := []
  renderedMessages := []
  unreadMessages := 0
  isChatFocused := false
  chatTabNewAlert := false
  activeTab := "dashboard"
  inventorySearchQuery := ""
  inventoryRarityFilter := ""
  inventorySaleFilter := "all"
  marketSearchQuery := ""
  marketRarityFilter := ""
  marketPriceMin := ""
  marketPriceMax := ""
  marketSellerFilter := ""
  renderedInventory := []
  renderedMarket := []
  leaderboard := []
  stats := []
  banner := none
  accountType := "user"
  bannedLockout := false
  itemCooldownText := none
  mineCooldownText := none
  reloadCount := 0

/-- Inventory controls left at their initial values. -/
def blankInvDom : InventoryDom := ⟨"", "", "all"⟩

/-- Market controls left at their initial values. -/
def blankMarketDom : MarketDom := ⟨"", "", "", "", ""⟩

/-- A family of concrete items for the pagination scenarios. -/
def demoItem (i : Nat) : Item where
  id := i
  name := ⟨"", "a", "b", "c", "d", i⟩
  rarity := "Common"
  level := "1"
  for_sale := true
  price := 5
  owner := "eve"
  item_secret := "sec"

/-- Ten concrete market items. -/
def tenItems : List Item := (List.range 10).map demoItem

/-- Three concrete market items. -/
def threeItems : List Item := (List.range 3).map demoItem

/-- A concrete non-banned account payload. -/
def demoAccount : AccountData where
  username := "u"
  type := "user"
  tokens := 0
  level := 1
  exp := 0
  banned := false
  banned_until := 0
  banned_reason := ""
  items := []
  pets := []
  last_item_time := 0
  last_mine_time := 0

/-- A concrete chat message. -/
def c1Msg (i : Nat) : ChatMessage := ⟨i, "alice", "hi", "user", 0⟩

/-- A concrete item holding a secret. -/
def c3Item : Item where
  id := 1
  name := ⟨"", "a", "b", "c", "d", 1⟩
  rarity := "Rare"
  level := "2"
  for_sale := false
  price := 0
  owner := "bob"
  item_secret := "s3cr3t"

/-- Concrete market filter controls: search text, no rarity, lower price
bound 2, no upper bound, seller fragment. -/
def c5Dom : MarketDom := ⟨"b C", "", "2", "", "AL"⟩

/-- A concrete market item matching `c5Dom`. -/
def c5Item : Item where
  id := 7
  name := ⟨"", "A", "b", "C", "d", 7⟩
  rarity := "Epic"
  level := "1"
  for_sale := true
  price := 3
  owner := "SALly"
  item_secret := "x"

/-- A tick on which every polled resource receives an auth rejection. -/
def allAuthError : TickResponses :=
  ⟨.authError, .authError, .authError, .authError, .authError, .authError⟩

/-- The demonstration state with the market page cursor already on page 2. -/
def c2State : ClientState := { baseState with marketPage := 2 }

/-! Bridging lemmas between the executable string primitives and their
relational counterparts. -/

/-- The executable leading-segment check agrees with `List.IsPrefix`. -/
lemma startsWithL_iff (p l : List Char) : startsWithL p l = true ↔ p <+: l := by
  induction p generalizing l with
  | nil =>
      constructor
      · intro _; exact ⟨l, rfl⟩
      · intro _; rfl
  | cons a ps ih =>
      cases l with
      | nil =>
          constructor
          · intro h; simp [startsWithL] at h
          · rintro ⟨t, ht⟩; simp at ht
      | cons b bs =>
          simp only [startsWithL, Bool.and_eq_true, beq_iff_eq, ih]
          constructor
          · rintro ⟨rfl, t, rfl⟩; exact ⟨t, rfl⟩
          · rintro ⟨t, ht⟩
            injection ht with h1 h2
            exact ⟨h1, t, h2⟩

/-- The executable substring search agrees with `List.IsInfix`. -/
lemma containsList_iff (p l : List Char) : containsList p l = true ↔ p <:+: l := by
  induction l with
  | nil =>
      simp only [containsList, List.isEmpty_iff, List.infix_nil]
  | cons c t ih =>
      simp only [containsList, Bool.or_eq_true, startsWithL_iff, ih, List.infix_cons_iff]

/-- The model of the JavaScript `includes` agrees with `List.IsInfix` on the
underlying character lists. -/
lemma strIncludes_iff (hay pat : String) :
    strIncludes hay pat = true ↔ pat.data <:+: hay.data := by
  unfold strIncludes
  exact containsList_iff pat.data hay.data

/-- Lowercasing keeps emptiness. -/
lemma lowerStr_eq_empty_iff (s : String) : lowerStr s = "" ↔ s = "" := by
  unfold lowerStr
  constructor
  · intro h
    have hd : s.data.map Char.toLower = [] := congrArg String.data h
    rcases List.map_eq_nil_iff.mp hd with h0
    cases s with
    | mk data => simp at h0; simp [h0]
  · rintro rfl; rfl

/-- Projection: the market filter evaluation never touches `marketItems`. -/
lemma applyMarketFilters_marketItems (dom : MarketDom) (items : List Item)
    (s : ClientState) : (applyMarketFilters dom items s).marketItems = s.marketItems := by
  simp only [applyMarketFilters, renderMarketplace]
  split <;> rfl

/-! Theorems settling the claims. -/

/-- C9: the delete-item request is sent unconditionally, whatever the answer
to the confirmation dialog is: `deleteItem` tests the truthiness of the
un-awaited `customConfirm` promise object, which is always truthy. -/
theorem deleteItem_ignores_confirmation :
    ∀ (userAnswer : Bool) (item_id : Nat),
      deleteItem userAnswer item_id = some ⟨"/api/delete_item", item_id⟩ ∧
      deleteItem userAnswer item_id = deleteItem (!userAnswer) item_id := by
  intro a i
  exact ⟨rfl, rfl⟩

/-- C10: cancelling a sale issues exactly the request that selling the item
for the price input "1" issues: the same `/api/sell_item` write with the
price field equal to 1. -/
theorem cancelSale_is_sell_at_price_one :
    ∀ itemId : Nat,
      sellItemRequest itemId (some "1") = some (cancelSaleRequest itemId) ∧
      (cancelSaleRequest itemId).endpoint = "/api/sell_item" ∧
      (cancelSaleRequest itemId).price = some 1 := by
  intro i
  refine ⟨?_, rfl, rfl⟩
  have hp : parseIntJs "1" = some 1 := by decide
  have h1 : sellItemRequest i (some "1") =
      if ("1" : String) = "" then none
      else some ⟨"/api/sell_item", i, parseIntJs "1"⟩ := rfl
  rw [h1, if_neg (by decide : ¬ (("1" : String) = "")), hp]
  rfl

/-- C6: a transiently failed fetch (rejected promise, no callback runs)
leaves every resource handler a no-op: the stored snapshot and the painted
state are unchanged, and after a successful snapshot a failed tick still
reflects that snapshot. -/
theorem transient_failure_retains_snapshot :
    ∀ (s : ClientState) (idom : InventoryDom) (mdom : MarketDom) (now : ℚ)
      (mkt : List Item) (msgs : List ChatMessage),
      getStats .failure s = s ∧
      refreshBanner .failure s = s ∧
      refreshAccount .failure idom now s = s ∧
      refreshGlobalMessages .failure s = s ∧
      refreshLeaderboard .failure s = s ∧
      refreshMarket mdom .failure s = s ∧
      (refreshMarket mdom (.ok mkt) s).marketItems = MarketSlot.list mkt ∧
      refreshMarket mdom .failure (refreshMarket mdom (.ok mkt) s) =
        refreshMarket mdom (.ok mkt) s ∧
      refreshGlobalMessages .failure (refreshGlobalMessages (.ok msgs) s) =
        refreshGlobalMessages (.ok msgs) s := by
  intro s idom mdom now mkt msgs
  refine ⟨rfl, rfl, rfl, rfl, rfl, rfl, ?_, rfl, rfl⟩
  show (applyMarketFilters mdom mkt { s with marketItems := MarketSlot.list mkt }).marketItems = _
  rw [applyMarketFilters_marketItems]

/-- C4: within one evaluation of a list filter, the page cursor is reset to
1 exactly when some filter field read from the controls differs from the
value stored by the previous evaluation, and is carried over unchanged
otherwise; this holds for the inventory and the market list. -/
theorem filter_change_resets_page :
    ∀ (s : ClientState) (idom : InventoryDom) (mdom : MarketDom) (inv mkt : List Item),
      ((applyInventoryFilters idom inv s).inventoryPage =
        if s.inventorySearchQuery ≠ lowerStr idom.search ∨
            s.inventoryRarityFilter ≠ idom.rarity ∨
            s.inventorySaleFilter ≠ idom.sale then 1 else s.inventoryPage) ∧
      ((applyMarketFilters mdom mkt s).marketPage =
        if s.marketSearchQuery ≠ lowerStr mdom.search ∨
            s.marketRarityFilter ≠ mdom.rarity ∨
            s.marketPriceMin ≠ mdom.priceMin ∨
            s.marketPriceMax ≠ mdom.priceMax ∨
            s.marketSellerFilter ≠ lowerStr mdom.seller then 1 else s.marketPage) := by
  intro s idom mdom inv mkt
  constructor
  · simp only [applyInventoryFilters, renderInventory]
    split_ifs <;> rfl
  · simp only [applyMarketFilters, renderMarketplace]
    split_ifs <;> rfl

/-- Characterization of the lower price bound test against the spec-side
reading of the control. -/
lemma priceGeMin_iff (minStr : String) (price : Int) (lo : Option Int)
    (h : boundOf minStr = some lo) :
    (priceGeMin minStr price = true ↔ ∀ m ∈ lo, m ≤ price) := by
  unfold boundOf at h
  by_cases hb : minStr = ""
  · rw [if_pos hb] at h
    have hlo : lo = none := (Option.some.inj h).symm
    subst hlo
    simp [priceGeMin, hb]
  · rw [if_neg hb] at h
    cases hj : jsNumber minStr with
    | none => rw [hj] at h; simp at h
    | some m =>
        rw [hj] at h
        have hlo : lo = some m := (Option.some.inj h).symm
        subst hlo
        simp [priceGeMin, hb, hj]

/-- Characterization of the upper price bound test against the spec-side
reading of the control. -/
lemma priceLeMax_iff (maxStr : String) (price : Int) (hi : Option Int)
    (h : boundOf maxStr = some hi) :
    (priceLeMax maxStr price = true ↔ ∀ m ∈ hi, price ≤ m) := by
  unfold boundOf at h
  by_cases hb : maxStr = ""
  · rw [if_pos hb] at h
    have hhi : hi = none := (Option.some.inj h).symm
    subst hhi
    simp [priceLeMax, hb]
  · rw [if_neg hb] at h
    cases hj : jsNumber maxStr with
    | none => rw [hj] at h; simp at h
    | some m =>
        rw [hj] at h
        have hhi : hi = some m := (Option.some.inj h).symm
        subst hhi
        simp [priceLeMax, hb, hj]

/-- C5: membership in the filtered market collection is the conjunction of
the case-insensitive substring match on the composed display name, the
exact rarity match (or blank rarity control), the inclusive price range
with blank bounds open, and the case-insensitive substring match on the
owner (or blank seller control). -/
theorem market_filter_conjunctive :
    ∀ (dom : MarketDom) (items : List Item) (it : Item) (lo hi : Option Int),
      boundOf dom.priceMin = some lo →
      boundOf dom.priceMax = some hi →
      (it ∈ marketFilteredList (lowerStr dom.search) dom.rarity dom.priceMin
          dom.priceMax (lowerStr dom.seller) items ↔
        it ∈ items ∧
        (lowerStr dom.search).data <:+: (lowerStr (itemFullName it)).data ∧
        (dom.rarity = "" ∨ it.level = dom.rarity) ∧
        (∀ m ∈ lo, m ≤ it.price) ∧
        (∀ m ∈ hi, it.price ≤ m) ∧
        (dom.seller = "" ∨ (lowerStr dom.seller).data <:+: (lowerStr it.owner).data)) := by
  intro dom items it lo hi hlo hhi
  rw [marketFilteredList, List.mem_filter]
  refine and_congr_right fun _ => ?_
  simp only [marketItemMatches, Bool.and_eq_true, Bool.or_eq_true, beq_iff_eq,
    strIncludes_iff, priceGeMin_iff dom.priceMin it.price lo hlo,
    priceLeMax_iff dom.priceMax it.price hi hhi, lowerStr_eq_empty_iff]
  tauto

/-- Witness for C5 at a concrete filter state and item. -/
theorem market_filter_conjunctive_witness :
    boundOf c5Dom.priceMin = some (some 2) ∧
    boundOf c5Dom.priceMax = some none ∧
    (c5Item ∈ marketFilteredList (lowerStr c5Dom.search) c5Dom.rarity c5Dom.priceMin
        c5Dom.priceMax (lowerStr c5Dom.seller) [c5Item] ↔
      c5Item ∈ [c5Item] ∧
      (lowerStr c5Dom.search).data <:+: (lowerStr (itemFullName c5Item)).data ∧
      (c5Dom.rarity = "" ∨ c5Item.level = c5Dom.rarity) ∧
      (∀ m ∈ some (2 : Int), m ≤ c5Item.price) ∧
      (∀ m ∈ (none : Option Int), c5Item.price ≤ m) ∧
      (c5Dom.seller = "" ∨ (lowerStr c5Dom.seller).data <:+: (lowerStr c5Item.owner).data)) :=
  ⟨by decide, by decide,
    market_filter_conjunctive c5Dom [c5Item] c5Item (some 2) none (by decide) (by decide)⟩

/-- C8: the cooldown message is empty exactly when
`duration - (now - lastActionTime)` is not positive, otherwise it shows the
ceiling of the remaining seconds, with durations 60 (item creation) and 300
(token mining); `refreshAccount` derives both display fields from exactly
this projection. -/
theorem cooldown_projection :
    ∀ (now last : ℚ) (s : ClientState) (d : AccountData) (idom : InventoryDom),
      (ITEM_CREATE_COOLDOWN - (now - last) ≤ 0 →
        cooldownDisplay ITEM_CREATE_COOLDOWN now last = none) ∧
      (0 < ITEM_CREATE_COOLDOWN - (now - last) →
        cooldownDisplay ITEM_CREATE_COOLDOWN now last =
          some ⌈ITEM_CREATE_COOLDOWN - (now - last)⌉) ∧
      (TOKEN_MINE_COOLDOWN - (now - last) ≤ 0 →
        cooldownDisplay TOKEN_MINE_COOLDOWN now last = none) ∧
      (0 < TOKEN_MINE_COOLDOWN - (now - last) →
        cooldownDisplay TOKEN_MINE_COOLDOWN now last =
          some ⌈TOKEN_MINE_COOLDOWN - (now - last)⌉) ∧
      (d.banned = false →
        (refreshAccount (.ok d) idom now s).itemCooldownText =
          cooldownDisplay ITEM_CREATE_COOLDOWN now d.last_item_time ∧
        (refreshAccount (.ok d) idom now s).mineCooldownText =
          cooldownDisplay TOKEN_MINE_COOLDOWN now d.last_mine_time) := by
  intro now last s d idom
  refine ⟨?_, ?_, ?_, ?_, ?_⟩
  · intro h
    unfold cooldownDisplay
    rw [if_neg (not_lt.mpr h)]
  · intro h
    unfold cooldownDisplay
    rw [if_pos h]
  · intro h
    unfold cooldownDisplay
    rw [if_neg (not_lt.mpr h)]
  · intro h
    unfold cooldownDisplay
    rw [if_pos h]
  · intro hb
    simp [refreshAccount, hb]

/-- Witness for C8 at the concrete inputs of the spec examples. -/
theorem cooldown_projection_witness :
    cooldownDisplay ITEM_CREATE_COOLDOWN 100 70 = some 30 ∧
    cooldownDisplay ITEM_CREATE_COOLDOWN 100 10 = none ∧
    cooldownDisplay TOKEN_MINE_COOLDOWN 400 150 = some 50 := by
  refine ⟨?_, ?_, ?_⟩
  · have h := (cooldown_projection 100 70 baseState demoAccount blankInvDom).2.1
    rw [h (by norm_num [ITEM_CREATE_COOLDOWN])]
    norm_num [ITEM_CREATE_COOLDOWN]
  · exact (cooldown_projection 100 10 baseState demoAccount blankInvDom).1
      (by norm_num [ITEM_CREATE_COOLDOWN])
  · have h := (cooldown_projection 400 150 baseState demoAccount blankInvDom).2.2.2.1
    rw [h (by norm_num [TOKEN_MINE_COOLDOWN])]
    norm_num [TOKEN_MINE_COOLDOWN]

/-- C1: the unread counter double-counts.  With the chat unfocused and the
dashboard tab active, one message delivered on the first tick and a second
one on the next tick leave the counter at 3, not 2: a changed message count
replays the WHOLE fresh list through `handleNewMessage`, re-counting the
message already rendered on the first tick.  Switching to the chat tab does
reset the counter to 0. -/
theorem unread_counter_double_counts :
    (refreshGlobalMessages (.ok [c1Msg 1]) baseState).unreadMessages = 1 ∧
    (refreshGlobalMessages (.ok [c1Msg 1, c1Msg 2])
      (refreshGlobalMessages (.ok [c1Msg 1]) baseState)).unreadMessages = 3 ∧
    (switchTab "chat"
      (refreshGlobalMessages (.ok [c1Msg 1, c1Msg 2])
        (refreshGlobalMessages (.ok [c1Msg 1]) baseState))).unreadMessages = 0 := by
  refine ⟨by decide, by decide, by decide⟩

/-- C3: the operation that shows an item secret to its owner DOES write the
secret to the console channel: the first statement of `customAlert` is
`console.log(message)`, and `viewSecret` passes the secret inside the
message, so the console output contains the secret verbatim. -/
theorem viewSecret_logs_secret :
    (viewSecret [c3Item] 1).map (fun e => strIncludes e.consoleLog c3Item.item_secret)
        = some true ∧
    (viewSecret [c3Item] 1).map AlertEffect.consoleLog =
      some "Secret (do not share - it will let people take your item): s3cr3t" := by
  refine ⟨by decide, by decide⟩

/-- Counterexample to C2: starting from the demonstration state, a market
refresh with ten items followed by one Next click puts the cursor on page 2;
a later refresh delivering only three items with unchanged filter controls
leaves the cursor at 2, although max 1 (totalPages) of the filtered set is
1, and the visible slice is taken at the stale cursor and comes out empty —
no clamp/reset to 1 happens before slicing. -/
theorem market_page_exceeds_totalPages :
    (refreshMarket blankMarketDom (.ok threeItems)
      (marketNextPage (marketFilteredList "" "" "" "" "" tenItems)
        (refreshMarket blankMarketDom (.ok tenItems) baseState))).marketPage = 2 ∧
    max 1 (totalPagesOf (marketFilteredList "" "" "" "" "" threeItems).length) = 1 ∧
    (refreshMarket blankMarketDom (.ok threeItems)
      (marketNextPage (marketFilteredList "" "" "" "" "" tenItems)
        (refreshMarket blankMarketDom (.ok tenItems) baseState))).renderedMarket = [] := by
  refine ⟨by decide, by decide, by decide⟩

/-- Projection: the role-gated tab adjustment never touches the inventory
page cursor or the stored inventory filter values. -/
lemma roleTabAdjust_fields (t : String) (s : ClientState) :
    (roleTabAdjust t s).inventoryPage = s.inventoryPage ∧
    (roleTabAdjust t s).inventorySearchQuery = s.inventorySearchQuery ∧
    (roleTabAdjust t s).inventoryRarityFilter = s.inventoryRarityFilter ∧
    (roleTabAdjust t s).inventorySaleFilter = s.inventorySaleFilter := by
  unfold roleTabAdjust switchTab
  split_ifs <;> exact ⟨rfl, rfl, rfl, rfl⟩

set_option maxHeartbeats 2000000 in
/-- C2 as amended: with unchanged filter controls the page cursor is
carried over as is — the market slice is taken at the stale cursor with no
clamp to the filtered totalPages — and the only additional reset is the
inventory one of `refreshAccount`, keyed on the UNFILTERED item count. -/
theorem page_cursor_no_filtered_clamp :
    ∀ (s : ClientState) (mdom : MarketDom) (idom : InventoryDom) (d : AccountData)
      (now : ℚ) (mkt : List Item),
      lowerStr mdom.search = s.marketSearchQuery →
      mdom.rarity = s.marketRarityFilter →
      mdom.priceMin = s.marketPriceMin →
      mdom.priceMax = s.marketPriceMax →
      lowerStr mdom.seller = s.marketSellerFilter →
      lowerStr idom.search = s.inventorySearchQuery →
      idom.rarity = s.inventoryRarityFilter →
      idom.sale = s.inventorySaleFilter →
      d.banned = false →
      ((refreshMarket mdom (.ok mkt) s).marketPage = s.marketPage ∧
       (refreshMarket mdom (.ok mkt) s).renderedMarket =
         ((marketFilteredList s.marketSearchQuery s.marketRarityFilter s.marketPriceMin
             s.marketPriceMax s.marketSellerFilter mkt).drop
           ((s.marketPage - 1) * itemsPerPage)).take itemsPerPage ∧
       (refreshAccount (.ok d) idom now s).inventoryPage =
         (if (s.inventoryPage - 1) * itemsPerPage ≥ d.items.length then 1
          else s.inventoryPage)) := by
  intro s mdom idom d now mkt h1 h2 h3 h4 h5 h6 h7 h8 hb
  refine ⟨?_, ?_, ?_⟩
  · simp [refreshMarket, applyMarketFilters, renderMarketplace, h1, h2, h3, h4, h5]
  · simp [refreshMarket, applyMarketFilters, renderMarketplace, h1, h2, h3, h4, h5]
  · simp only [refreshAccount, hb, Bool.false_eq_true, if_false, applyInventoryFilters,
      renderInventory, roleTabAdjust, switchTab]
    split_ifs <;> simp_all

/-- Witness for the amended C2 at the demonstration state on page 2. -/
theorem page_cursor_no_filtered_clamp_witness :
    lowerStr blankMarketDom.search = c2State.marketSearchQuery ∧
    demoAccount.banned = false ∧
    ((refreshMarket blankMarketDom (.ok threeItems) c2State).marketPage = c2State.marketPage ∧
     (refreshMarket blankMarketDom (.ok threeItems) c2State).renderedMarket =
       ((marketFilteredList c2State.marketSearchQuery c2State.marketRarityFilter
           c2State.marketPriceMin c2State.marketPriceMax c2State.marketSellerFilter
           threeItems).drop ((c2State.marketPage - 1) * itemsPerPage)).take itemsPerPage ∧
     (refreshAccount (.ok demoAccount) blankInvDom 0 c2State).inventoryPage =
       (if (c2State.inventoryPage - 1) * itemsPerPage ≥ demoAccount.items.length then 1
        else c2State.inventoryPage)) :=
  ⟨rfl, rfl,
    page_cursor_no_filtered_clamp c2State blankMarketDom blankInvDom demoAccount 0 threeItems
      rfl rfl rfl rfl rfl rfl rfl rfl rfl⟩

/-- Counterexample to C7: an auth rejection on the leaderboard fetch leaves
the session fully intact — the stored token survives and no forced re-login
happens — contradicting the claim that EVERY polled resource invalidates
the session on an auth rejection (and that the count is not zero). -/
theorem leaderboard_auth_rejection_ignored :
    refreshLeaderboard .authError baseState = baseState ∧
    baseState.token = some "tok" ∧
    (refreshLeaderboard .authError baseState).reloadCount = 0 :=
  ⟨rfl, rfl, rfl⟩

/-- C7 as amended: only the account fetch reacts to an auth rejection, by
removing the stored token and forcing one reload; the other five polled
resources ignore it; a tick on which every resource is rejected therefore
performs exactly one forced logout. -/
theorem auth_rejection_single_logout :
    ∀ (s : ClientState) (t : String) (idom : InventoryDom) (mdom : MarketDom) (now : ℚ),
      s.token = some t →
      ((tick allAuthError idom mdom now s).token = none ∧
       (tick allAuthError idom mdom now s).reloadCount = s.reloadCount + 1 ∧
       refreshLeaderboard .authError s = s ∧
       getStats .authError s = s ∧
       refreshBanner .authError s = s ∧
       refreshGlobalMessages .authError s = s ∧
       (refreshMarket mdom .authError s).token = s.token ∧
       (refreshMarket mdom .authError s).reloadCount = s.reloadCount ∧
       (refreshAccount .authError idom now s).token = none ∧
       (refreshAccount .authError idom now s).reloadCount = s.reloadCount + 1) := by
  intro s t idom mdom now h
  have hg : s.token.isNone = false := by rw [h]; rfl
  refine ⟨?_, ?_, rfl, rfl, rfl, rfl, rfl, rfl, rfl, rfl⟩
  · simp [tick, hg, allAuthError, getStats, refreshBanner, refreshAccount,
      refreshGlobalMessages, refreshLeaderboard, refreshMarket]
  · simp [tick, hg, allAuthError, getStats, refreshBanner, refreshAccount,
      refreshGlobalMessages, refreshLeaderboard, refreshMarket]

/-- Witness for the amended C7 at the demonstration state. -/
theorem auth_rejection_single_logout_witness :
    baseState.token = some "tok" ∧
    ((tick allAuthError blankInvDom blankMarketDom 0 baseState).token = none ∧
     (tick allAuthError blankInvDom blankMarketDom 0 baseState).reloadCount =
       baseState.reloadCount + 1 ∧
     refreshLeaderboard .authError baseState = baseState ∧
     getStats .authError baseState = baseState ∧
     refreshBanner .authError baseState = baseState ∧
     refreshGlobalMessages .authError baseState = baseState ∧
     (refreshMarket blankMarketDom .authError baseState).token = baseState.token ∧
     (refreshMarket blankMarketDom .authError baseState).reloadCount =
       baseState.reloadCount ∧
     (refreshAccount .authError blankInvDom 0 baseState).token = none ∧
     (refreshAccount .authError blankInvDom 0 baseState).reloadCount =
       baseState.reloadCount + 1) :=
  ⟨rfl, auth_rejection_single_logout baseState "tok" blankInvDom blankMarketDom 0 rfl⟩

end Economix
